import Mathlib

/-!
Verification development for the claude-governance-central repository.

The definitions below are a shallow embedding of the V2 governance API
(src/unnamed/part_005), the legacy API (src/backend/src/index.js) and the
relational schema (src/unnamed/part_000, src/unnamed/part_001).  SQL rows are
modelled as Lean structures, tables as lists of rows, and each HTTP handler as
a pure function of the request parameters, the authenticated context and the
table contents.  Timestamps and ids are natural numbers; nullable SQL columns
are Option-typed.
-/

/-- The authenticated caller (req.user, produced by the auth middleware):
user id, team id and role. -/
structure Ctx where
  user_id : Nat
  team_id : Nat
  role : String
  deriving DecidableEq, Repr

/-- A row of evidence_repository_v2 (schema in src/unnamed/part_001).
Only the columns read or written by the modelled handlers are carried;
user_id and team_id are nullable in the schema (no NOT NULL constraint). -/
structure Evidence where
  id : Nat
  user_id : Option Nat
  team_id : Option Nat
  task_category : String
  evidence_type : String
  evidence_data : String
  prompt_text : Option String
  completion_text : Option String
  conversation_id : Option Nat
  knowledge_pattern_id : Option String
  coding_standard_id : Option String
  visibility : String
  created_at : Nat
  deriving DecidableEq, Repr

/-- Query parameters of GET /api/evidence/search (src/unnamed/part_005
line 443).  All are optional; the handler defaults visibility to "team",
limit to 100 and offset to 0.  project_id is destructured by the handler
but never used in any WHERE condition. -/
structure SearchOpts where
  category : Option String := none
  user_id : Option Nat := none
  project_id : Option Nat := none
  from_date : Option Nat := none
  to_date : Option Nat := none
  visibility : Option String := none
  limit : Option Nat := none
  offset : Option Nat := none
  deriving DecidableEq, Repr

/-- The visibility branch of the search WHERE clause (src/unnamed/part_005
lines 450-456).  The source only has the two branches shown: a condition is
pushed for "private" and for "team"; every other value (including
"organization" and "public") pushes no condition at all. -/
def visibilityCond (visibility : String) (ctx : Ctx) (e : Evidence) : Bool :=
  if visibility = "private" then e.user_id = some ctx.user_id
  else if visibility = "team" then e.team_id = some ctx.team_id
  else true

/-- The caller-supplied filter conditions of the search WHERE clause
(src/unnamed/part_005 lines 458-476): category, user_id, from_date, to_date.
Absent options push no condition. -/
def matchesFilters (opts : SearchOpts) (e : Evidence) : Bool :=
  (match opts.category with
   | some c => e.task_category = c
   | none => true) &&
  (match opts.user_id with
   | some u => e.user_id = some u
   | none => true) &&
  (match opts.from_date with
   | some d => d ≤ e.created_at
   | none => true) &&
  (match opts.to_date with
   | some d => e.created_at ≤ d
   | none => true)

/-- The full WHERE clause of the evidence search: the visibility branch
(with the handler default visibility = "team") conjoined with the
caller-supplied filters. -/
def searchWhere (opts : SearchOpts) (ctx : Ctx) (e : Evidence) : Bool :=
  visibilityCond (opts.visibility.getD "team") ctx e && matchesFilters opts e

/-- Insert an element into a list that is sorted descending by key,
keeping it sorted (stable). -/
def insertDescBy {α : Type} (key : α → Nat) (a : α) : List α → List α
  | [] => [a]
  | b :: bs => if key a ≤ key b then b :: insertDescBy key a bs else a :: b :: bs

/-- Sort a list descending by a Nat key (insertion sort, stable), modelling
ORDER BY ... DESC. -/
def sortDescBy {α : Type} (key : α → Nat) : List α → List α
  | [] => []
  | a :: as => insertDescBy key a (sortDescBy key as)

/-- The set of rows matching the search WHERE clause (the same predicate the
handler uses both for the page query and for the COUNT query). -/
def searchMatches (opts : SearchOpts) (ctx : Ctx) (rows : List Evidence) : List Evidence :=
  rows.filter (searchWhere opts ctx)

/-- GET /api/evidence/search (src/unnamed/part_005 lines 441-505): filter by
the WHERE clause, ORDER BY created_at DESC, then OFFSET and LIMIT with the
handler defaults (limit 100, offset 0).  The caller-supplied limit is used
as given; the source applies no cap. -/
def searchEvidence (opts : SearchOpts) (ctx : Ctx) (rows : List Evidence) : List Evidence :=
  ((sortDescBy (fun e => e.created_at) (searchMatches opts ctx rows)).drop
      (opts.offset.getD 0)).take (opts.limit.getD 100)

theorem length_insertDescBy {α : Type} (key : α → Nat) (a : α) (l : List α) :
    (insertDescBy key a l).length = l.length + 1 := by
  induction l with
  | nil => rfl
  | cons b bs ih =>
    rw [insertDescBy]
    split
    · simp [List.length_cons, ih]
    · simp [List.length_cons]

theorem length_sortDescBy {α : Type} (key : α → Nat) (l : List α) :
    (sortDescBy key l).length = l.length := by
  induction l with
  | nil => rfl
  | cons a as ih =>
    rw [sortDescBy, length_insertDescBy, ih, List.length_cons]

theorem mem_insertDescBy {α : Type} (key : α → Nat) (a x : α) (l : List α) :
    x ∈ insertDescBy key a l ↔ x = a ∨ x ∈ l := by
  induction l with
  | nil => simp [insertDescBy]
  | cons b bs ih =>
    rw [insertDescBy]
    split
    · rw [List.mem_cons, ih, List.mem_cons]
      tauto
    · rw [List.mem_cons]

theorem mem_sortDescBy {α : Type} (key : α → Nat) (x : α) (l : List α) :
    x ∈ sortDescBy key l ↔ x ∈ l := by
  induction l with
  | nil => simp [sortDescBy]
  | cons a as ih =>
    rw [sortDescBy, mem_insertDescBy, ih, List.mem_cons]

/-- Error kinds surfaced by the modelled handlers: 400 on missing required
fields, 404 when an id does not resolve in the caller scope. -/
inductive ApiError where
  | validation
  | notFound
  deriving DecidableEq, Repr

/-- Request body of POST /api/evidence (authenticated, src/unnamed/part_005
lines 510-520).  The user_id and team_id fields are carried because a caller
may send them, but the handler destructuring never reads them. -/
structure EvidenceBody where
  task_category : String
  evidence_type : String
  evidence_data : String
  prompt_text : Option String := none
  completion_text : Option String := none
  conversation_id : Option Nat := none
  knowledge_pattern_id : Option String := none
  coding_standard_id : Option String := none
  visibility : Option String := none
  user_id : Option Nat := none
  team_id : Option Nat := none
  deriving DecidableEq, Repr

/-- The evidence_repository_v2 table together with the id sequence and the
database clock (NOW()). -/
structure EvidenceStore where
  rows : List Evidence
  nextId : Nat
  now : Nat
  deriving DecidableEq, Repr

/-- The row the authenticated INSERT stores (src/unnamed/part_005 lines
526-546): user_id and team_id come from req.user, every other column from the
request body, visibility defaulting to "team", id and created_at assigned by
the database. -/
def submitRow (body : EvidenceBody) (ctx : Ctx) (st : EvidenceStore) : Evidence :=
  { id := st.nextId
    user_id := some ctx.user_id
    team_id := some ctx.team_id
    task_category := body.task_category
    evidence_type := body.evidence_type
    evidence_data := body.evidence_data
    prompt_text := body.prompt_text
    completion_text := body.completion_text
    conversation_id := body.conversation_id
    knowledge_pattern_id := body.knowledge_pattern_id
    coding_standard_id := body.coding_standard_id
    visibility := body.visibility.getD "team"
    created_at := st.now }

/-- POST /api/evidence (authenticated, src/unnamed/part_005 lines 508-553):
400 when task_category, evidence_type or evidence_data is missing (falsy),
otherwise insert the stamped row and return it. -/
def submitEvidence (body : EvidenceBody) (ctx : Ctx) (st : EvidenceStore) :
    Except ApiError (Evidence × EvidenceStore) :=
  if body.task_category = "" || body.evidence_type = "" || body.evidence_data = "" then
    .error .validation
  else
    .ok (submitRow body ctx st,
      { rows := st.rows ++ [submitRow body ctx st], nextId := st.nextId + 1, now := st.now })

/-- GET /api/evidence/:id/context (src/unnamed/part_005 lines 556-577):
look the row up by id AND the caller team id; 404 when absent. -/
def getEvidenceContext (id : Nat) (ctx : Ctx) (st : EvidenceStore) : Except ApiError Evidence :=
  match st.rows.find? (fun e => e.id = id && e.team_id = some ctx.team_id) with
  | some e => .ok e
  | none => .error .notFound

/-- Request body of the unauthenticated legacy POST /api/evidence
(src/backend/src/index.js lines 95-103): user_id and project_id are
caller-supplied opaque strings. -/
structure LegacyBody where
  task_id : Option String := none
  task_category : String
  evidence_type : String
  evidence_data : String
  user_id : Option String := none
  project_id : Option String := none
  deriving DecidableEq, Repr

/-- A row of the legacy evidence_repository table (src/database/init.sql):
user_id and project_id are free-text columns with no foreign key. -/
structure LegacyEvidence where
  id : Nat
  task_id : Option String
  task_category : String
  evidence_type : String
  evidence_data : String
  user_id : Option String
  project_id : Option String
  created_at : Nat
  deriving DecidableEq, Repr

/-- The unauthenticated legacy POST /api/evidence (src/backend/src/index.js
lines 95-124): validates the same three required fields, then stores the
caller-declared user_id and project_id verbatim. -/
def legacyRow (body : LegacyBody) (nextId now : Nat) : LegacyEvidence :=
  { id := nextId
    task_id := body.task_id
    task_category := body.task_category
    evidence_type := body.evidence_type
    evidence_data := body.evidence_data
    user_id := body.user_id
    project_id := body.project_id
    created_at := now }

/-- The INSERT of the unauthenticated legacy path, with validation. -/
def legacySubmitEvidence (body : LegacyBody) (nextId now : Nat)
    (rows : List LegacyEvidence) : Except ApiError (LegacyEvidence × List LegacyEvidence) :=
  if body.task_category = "" || body.evidence_type = "" || body.evidence_data = "" then
    .error .validation
  else
    .ok (legacyRow body nextId now, rows ++ [legacyRow body nextId now])

/-- A row of hook_configurations_v2 (schema in src/unnamed/part_001, extended
in src/unnamed/part_000). -/
structure Hook where
  id : Nat
  name : String
  category : String
  hook_type : String
  script_content : String
  enabled : Bool
  team_id : Nat
  project_id : Option Nat
  scope : String
  version : Nat
  created_by : Option Nat
  created_at : Nat
  updated_at : Nat
  deriving DecidableEq, Repr

/-- PUT /api/hooks/:id (src/unnamed/part_005 lines 412-434): UPDATE the row
whose id and team_id match, setting only script_content, enabled and
updated_at (to NOW()); every other row and every other column is untouched. -/
def updateHookInPlace (id : Nat) (script_content : String) (enabled : Bool)
    (ctx : Ctx) (now : Nat) (hooks : List Hook) : List Hook :=
  hooks.map (fun h =>
    if h.id = id && h.team_id = ctx.team_id then
      { h with script_content := script_content, enabled := enabled, updated_at := now }
    else h)

/-- Query parameters of GET /api/metrics/compliance (src/unnamed/part_005
line 584): the caller may override team_id, which otherwise defaults to the
caller team. -/
structure MetricsOpts where
  from_date : Option Nat := none
  to_date : Option Nat := none
  team_id : Option Nat := none
  deriving DecidableEq, Repr

/-- The WHERE clause of the compliance metrics query (src/unnamed/part_005
lines 586-600): team_id equality (caller override or caller team) plus the
optional date bounds. -/
def metricsWhere (opts : MetricsOpts) (ctx : Ctx) (e : Evidence) : Bool :=
  (e.team_id = some (opts.team_id.getD ctx.team_id)) &&
  (match opts.from_date with
   | some d => d ≤ e.created_at
   | none => true) &&
  (match opts.to_date with
   | some d => e.created_at ≤ d
   | none => true)

/-- The set of evidence rows entering the metrics aggregation. -/
def metricsMatches (opts : MetricsOpts) (ctx : Ctx) (rows : List Evidence) : List Evidence :=
  rows.filter (metricsWhere opts ctx)

/-- One row of the compliance metrics response (src/unnamed/part_005 lines
602-613): per task_category, the row count, the distinct user count, and a
pass_rate that the SQL hardcodes as the literal 0.87. -/
structure MetricRow where
  task_category : String
  total_verifications : Nat
  unique_users : Nat
  pass_rate : Rat
  deriving DecidableEq, Repr

/-- GET /api/metrics/compliance (src/unnamed/part_005 lines 582-620): filter
by the WHERE clause, GROUP BY task_category producing COUNT(*),
COUNT(DISTINCT user_id) and the constant 0.87, ORDER BY the count DESC. -/
def complianceMetrics (opts : MetricsOpts) (ctx : Ctx) (rows : List Evidence) :
    List MetricRow :=
  let matched := metricsMatches opts ctx rows
  let cats := (matched.map (fun e => e.task_category)).dedup
  sortDescBy (fun r => r.total_verifications)
    (cats.map (fun c =>
      { task_category := c
        total_verifications := (matched.filter (fun e => e.task_category = c)).length
        unique_users :=
          (((matched.filter (fun e => e.task_category = c)).map (fun e => e.user_id)).dedup).length
        pass_rate := mkRat 87 100 }))

/-- A row of the teams table (src/unnamed/part_001): organization is a
nullable text column. -/
structure Team where
  id : Nat
  name : String
  organization : Option String
  deriving DecidableEq, Repr

/-- Look up the organization of a team by id (the join the organization
visibility tier would need; the search handler performs no such join). -/
def teamOrg (teams : List Team) (tid : Nat) : Option String :=
  match teams.find? (fun t => t.id = tid) with
  | some t => t.organization
  | none => none

/-- A row of project_knowledge_links (src/unnamed/part_000 lines 65-77),
the bridge table with UNIQUE(project_id, knowledge_type, knowledge_id). -/
structure KnowledgeLink where
  id : Nat
  project_id : Nat
  knowledge_type : String
  knowledge_id : String
  scope : String
  created_by : Nat
  created_at : Nat
  deriving DecidableEq, Repr

/-- Modelled from the spec: no handler under src implements the knowledge
link operation (src/unnamed/part_000 only declares the project_knowledge_links
table with its UNIQUE(project_id, knowledge_type, knowledge_id) constraint,
and src/unnamed/part_003 only plans a POST /api/projects/:id/knowledge/link
route).  Per spec section 4.4, link is idempotent on the unique triple:
re-linking returns the existing row as a no-op instead of raising the
unique-constraint conflict; otherwise the new row is inserted.  The match on
the unique triple: -/
def linkMatches (project_id : Nat) (knowledge_type knowledge_id : String)
    (l : KnowledgeLink) : Bool :=
  l.project_id = project_id && l.knowledge_type = knowledge_type &&
    l.knowledge_id = knowledge_id

/-- Modelled from the spec: the row a fresh link inserts. -/
def linkRow (project_id : Nat) (knowledge_type knowledge_id scope : String)
    (created_by nextId now : Nat) : KnowledgeLink :=
  { id := nextId
    project_id := project_id
    knowledge_type := knowledge_type
    knowledge_id := knowledge_id
    scope := scope
    created_by := created_by
    created_at := now }

/-- Modelled from the spec: the link operation itself.  Re-linking an
existing triple returns the existing row and leaves the table unchanged; a
new triple appends one row. -/
def linkKnowledge (project_id : Nat) (knowledge_type knowledge_id scope : String)
    (created_by nextId now : Nat) (links : List KnowledgeLink) :
    KnowledgeLink × List KnowledgeLink :=
  match links.find? (linkMatches project_id knowledge_type knowledge_id) with
  | some l => (l, links)
  | none =>
    (linkRow project_id knowledge_type knowledge_id scope created_by nextId now,
     links ++ [linkRow project_id knowledge_type knowledge_id scope created_by nextId now])

/-! Concrete fixtures used by counterexamples and witnesses. -/

def ctx1 : Ctx := { user_id := 10, team_id := 1, role := "developer" }

/-- An evidence row owned by another user and another team. -/
def rowB : Evidence :=
  { id := 1
    user_id := some 20
    team_id := some 2
    task_category := "web"
    evidence_type := "test-pass"
    evidence_data := "d"
    prompt_text := none
    completion_text := none
    conversation_id := none
    knowledge_pattern_id := none
    coding_standard_id := none
    visibility := "team"
    created_at := 50 }

/-- An evidence row owned by the caller ctx1 (same user, same team). -/
def row2 : Evidence :=
  { id := 2
    user_id := some 10
    team_id := some 1
    task_category := "web"
    evidence_type := "test-pass"
    evidence_data := "d"
    prompt_text := none
    completion_text := none
    conversation_id := none
    knowledge_pattern_id := none
    coding_standard_id := none
    visibility := "team"
    created_at := 60 }

/-- An evidence row carrying the caller user id but a different team id
(the schema has no constraint tying the two columns together, and users can
change teams). -/
def rowP : Evidence :=
  { id := 3
    user_id := some 10
    team_id := some 3
    task_category := "web"
    evidence_type := "test-pass"
    evidence_data := "d"
    prompt_text := none
    completion_text := none
    conversation_id := none
    knowledge_pattern_id := none
    coding_standard_id := none
    visibility := "team"
    created_at := 70 }

/-- Two teams in different organizations. -/
def teams0 : List Team :=
  [{ id := 1, name := "alpha", organization := some "OrgA" },
   { id := 2, name := "beta", organization := some "OrgB" }]

def privOpts : SearchOpts := { visibility := some "private" }

def teamOpts : SearchOpts := { visibility := some "team" }

def orgOpts : SearchOpts := { visibility := some "organization" }

def pubOpts : SearchOpts := { visibility := some "public" }

def unknownOpts : SearchOpts := { visibility := some "zebra" }

/-- Claim C1 (counterexample): searching with visibility = organization is
not restricted to teams sharing the caller organization.  The caller is on
team 1 (organization OrgA); the store holds a single row owned by team 2
(organization OrgB); the search returns that row. -/
theorem organization_visibility_counterexample :
    rowB ∈ searchEvidence orgOpts ctx1 [rowB]
    ∧ rowB.team_id = some 2 ∧ ctx1.team_id = 1
    ∧ teamOrg teams0 1 = some "OrgA" ∧ teamOrg teams0 2 = some "OrgB" := by
  decide

/-- Claim C1 (amended): for visibility = organization the search applies no
restriction at all — it returns exactly what visibility = public returns,
regardless of team organizations. -/
theorem organization_visibility_unrestricted (opts : SearchOpts) (ctx : Ctx)
    (rows : List Evidence) :
    searchEvidence { opts with visibility := some "organization" } ctx rows
      = searchEvidence { opts with visibility := some "public" } ctx rows := rfl

/-- Claim C2 (counterexample): an unrecognized visibility value does not
fall back to the team predicate.  With visibility = "zebra" the search
returns a row of another team that the team predicate excludes. -/
theorem unknown_visibility_counterexample :
    rowB ∈ searchEvidence unknownOpts ctx1 [rowB]
    ∧ rowB ∉ searchEvidence teamOpts ctx1 [rowB] := by
  decide

/-- Claim C2 (amended): an unrecognized visibility value fails open: any
value other than "private" and "team" yields exactly the unrestricted
visibility = public result. -/
theorem unknown_visibility_fails_open (v : String) (opts : SearchOpts) (ctx : Ctx)
    (rows : List Evidence) (h1 : v ≠ "private") (h2 : v ≠ "team") :
    searchEvidence { opts with visibility := some v } ctx rows
      = searchEvidence { opts with visibility := some "public" } ctx rows := by
  have hvc : ∀ e, visibilityCond v ctx e = true := by
    intro e
    unfold visibilityCond
    rw [if_neg h1, if_neg h2]
  have hw : searchWhere { opts with visibility := some v } ctx
      = searchWhere { opts with visibility := some "public" } ctx := by
    funext e
    show (visibilityCond v ctx e && matchesFilters { opts with visibility := some v } e)
      = (visibilityCond "public" ctx e
          && matchesFilters { opts with visibility := some "public" } e)
    rw [hvc e]
    rfl
  unfold searchEvidence searchMatches
  rw [hw]

/-- Witness for the amended C2 theorem at visibility = "zebra". -/
theorem unknown_visibility_fails_open_witness :
    searchEvidence unknownOpts ctx1 [rowB] = searchEvidence pubOpts ctx1 [rowB] :=
  unknown_visibility_fails_open "zebra" {} ctx1 [rowB] (by decide) (by decide)

/-- Claim C3 (counterexample): caller-supplied filter options can widen the
result set.  With no options the search defaults to the team predicate and
returns nothing for a store holding only a row of another team; supplying the
option visibility = public returns that row. -/
theorem filters_widen_counterexample :
    rowB ∈ searchEvidence pubOpts ctx1 [rowB]
    ∧ rowB ∉ searchEvidence {} ctx1 [rowB] := by
  decide

/-- Claim C3 (amended): at a fixed scope parameter the remaining
caller-supplied filters only narrow: every evidence row matching the search
WHERE clause with caller filters also matches it with the same visibility and
no other filters, and every evidence row entering the metrics aggregation
with caller date filters also enters it with the same team_id and no date
filters.  (The scope parameters themselves — visibility for the search,
team_id for the metrics — can widen, as the counterexample shows.) -/
theorem filters_only_narrow :
    (∀ (opts : SearchOpts) (ctx : Ctx) (rows : List Evidence) (e : Evidence),
        e ∈ searchMatches opts ctx rows →
        e ∈ searchMatches { visibility := opts.visibility } ctx rows)
    ∧ (∀ (opts : MetricsOpts) (ctx : Ctx) (rows : List Evidence) (e : Evidence),
        e ∈ metricsMatches opts ctx rows →
        e ∈ metricsMatches { team_id := opts.team_id } ctx rows) := by
  constructor
  · intro opts ctx rows e he
    rw [searchMatches, List.mem_filter] at he ⊢
    refine ⟨he.1, ?_⟩
    have h2 := he.2
    rw [searchWhere, Bool.and_eq_true] at h2
    rw [searchWhere, Bool.and_eq_true]
    refine ⟨h2.1, ?_⟩
    rfl
  · intro opts ctx rows e he
    rw [metricsMatches, List.mem_filter] at he ⊢
    refine ⟨he.1, ?_⟩
    have h2 := he.2
    rw [metricsWhere, Bool.and_eq_true, Bool.and_eq_true] at h2
    show ((decide (e.team_id = some (opts.team_id.getD ctx.team_id)) && true) && true) = true
    rw [Bool.and_true, Bool.and_true]
    exact h2.1.1

def catOpts : SearchOpts := { category := some "web" }

def dateMOpts : MetricsOpts := { from_date := some 0 }

/-- Witness for the amended C3 theorem on a caller-owned row: a category
filter and a date filter both keep the row inside the unfiltered scope. -/
theorem filters_only_narrow_witness :
    row2 ∈ searchMatches catOpts ctx1 [row2]
    ∧ row2 ∈ searchMatches { visibility := catOpts.visibility } ctx1 [row2]
    ∧ row2 ∈ metricsMatches dateMOpts ctx1 [row2]
    ∧ row2 ∈ metricsMatches { team_id := dateMOpts.team_id } ctx1 [row2] :=
  ⟨by decide, filters_only_narrow.1 catOpts ctx1 [row2] row2 (by decide),
   by decide, filters_only_narrow.2 dateMOpts ctx1 [row2] row2 (by decide)⟩

/-- Claim C4 (counterexample): the visibility = private result set is not a
subset of the visibility = team result set.  A row carrying the caller user
id but a different team id is returned by the private search and excluded by
the team search. -/
theorem visibility_monotonic_counterexample :
    rowP ∈ searchEvidence privOpts ctx1 [rowP]
    ∧ rowP ∉ searchEvidence teamOpts ctx1 [rowP] := by
  decide

/-- Claim C4 (amended): over the rows matching the search WHERE clause (the
pre-pagination result set), team ⊆ organization ⊆ public holds
unconditionally, and private ⊆ team holds provided every stored row carrying
the caller user id also carries the caller team id. -/
theorem visibility_monotonic (opts : SearchOpts) (ctx : Ctx) (rows : List Evidence)
    (h : ∀ e ∈ rows, e.user_id = some ctx.user_id → e.team_id = some ctx.team_id) :
    (∀ e ∈ searchMatches { opts with visibility := some "private" } ctx rows,
        e ∈ searchMatches { opts with visibility := some "team" } ctx rows)
    ∧ (∀ e ∈ searchMatches { opts with visibility := some "team" } ctx rows,
        e ∈ searchMatches { opts with visibility := some "organization" } ctx rows)
    ∧ (∀ e ∈ searchMatches { opts with visibility := some "organization" } ctx rows,
        e ∈ searchMatches { opts with visibility := some "public" } ctx rows) := by
  refine ⟨?_, ?_, ?_⟩
  · intro e he
    rw [searchMatches, List.mem_filter] at he ⊢
    obtain ⟨hmem, hw⟩ := he
    rw [searchWhere, Bool.and_eq_true] at hw
    obtain ⟨hv, hf⟩ := hw
    refine ⟨hmem, ?_⟩
    rw [searchWhere, Bool.and_eq_true]
    refine ⟨?_, hf⟩
    have hu : e.user_id = some ctx.user_id := of_decide_eq_true hv
    show decide (e.team_id = some ctx.team_id) = true
    exact decide_eq_true (h e hmem hu)
  · intro e he
    rw [searchMatches, List.mem_filter] at he ⊢
    obtain ⟨hmem, hw⟩ := he
    rw [searchWhere, Bool.and_eq_true] at hw
    refine ⟨hmem, ?_⟩
    rw [searchWhere, Bool.and_eq_true]
    exact ⟨rfl, hw.2⟩
  · intro e he
    rw [searchMatches, List.mem_filter] at he ⊢
    obtain ⟨hmem, hw⟩ := he
    rw [searchWhere, Bool.and_eq_true] at hw
    refine ⟨hmem, ?_⟩
    rw [searchWhere, Bool.and_eq_true]
    exact ⟨rfl, hw.2⟩

/-- Witness for the amended C4 theorem: a caller-owned row found by the
private predicate is also found by the team predicate. -/
theorem visibility_monotonic_witness :
    row2 ∈ searchMatches privOpts ctx1 [row2]
    ∧ row2 ∈ searchMatches teamOpts ctx1 [row2] :=
  ⟨by decide,
   (visibility_monotonic {} ctx1 [row2] (by decide)).1 row2 (by decide)⟩

/-- Claim C5: the authenticated submission stamps user_id and team_id from
the authenticated context, whatever identity fields the request body carries,
while the unauthenticated legacy submission stores the caller-declared
user_id and project_id verbatim. -/
theorem evidence_identity_stamping :
    (∀ (body : EvidenceBody) (ctx : Ctx) (st : EvidenceStore) (row : Evidence)
        (st2 : EvidenceStore),
        submitEvidence body ctx st = .ok (row, st2) →
        row.user_id = some ctx.user_id ∧ row.team_id = some ctx.team_id)
    ∧ (∀ (body : LegacyBody) (nextId now : Nat) (rows rows2 : List LegacyEvidence)
        (row : LegacyEvidence),
        legacySubmitEvidence body nextId now rows = .ok (row, rows2) →
        row.user_id = body.user_id ∧ row.project_id = body.project_id) := by
  constructor
  · intro body ctx st row st2 hsub
    unfold submitEvidence at hsub
    split at hsub
    · simp at hsub
    · rw [Except.ok.injEq, Prod.mk.injEq] at hsub
      obtain ⟨hrow, hst⟩ := hsub
      subst hrow
      exact ⟨rfl, rfl⟩
  · intro body nextId now rows rows2 row hsub
    unfold legacySubmitEvidence at hsub
    split at hsub
    · simp at hsub
    · rw [Except.ok.injEq, Prod.mk.injEq] at hsub
      obtain ⟨hrow, hst⟩ := hsub
      subst hrow
      exact ⟨rfl, rfl⟩

/-- A body carrying spoofed caller-declared identity fields. -/
def bodyA : EvidenceBody :=
  { task_category := "web"
    evidence_type := "test-pass"
    evidence_data := "d"
    user_id := some 99
    team_id := some 77 }

def legacyBodyA : LegacyBody :=
  { task_category := "web"
    evidence_type := "test-pass"
    evidence_data := "d"
    user_id := some "mallory"
    project_id := some "p1" }

def stEmpty : EvidenceStore := { rows := [], nextId := 7, now := 3 }

/-- Witness for C5: concrete submissions on both paths. -/
theorem evidence_identity_stamping_witness :
    (submitRow bodyA ctx1 stEmpty).user_id = some ctx1.user_id
    ∧ (submitRow bodyA ctx1 stEmpty).team_id = some ctx1.team_id
    ∧ (legacyRow legacyBodyA 7 3).user_id = legacyBodyA.user_id
    ∧ (legacyRow legacyBodyA 7 3).project_id = legacyBodyA.project_id :=
  ⟨(evidence_identity_stamping.1 bodyA ctx1 stEmpty _ _ rfl).1,
   (evidence_identity_stamping.1 bodyA ctx1 stEmpty _ _ rfl).2,
   (evidence_identity_stamping.2 legacyBodyA 7 3 [] _ _ rfl).1,
   (evidence_identity_stamping.2 legacyBodyA 7 3 [] _ _ rfl).2⟩

/-- A uniform store of 101 caller-team rows. -/
def mkRow (i : Nat) : Evidence :=
  { id := i
    user_id := some 10
    team_id := some 1
    task_category := "web"
    evidence_type := "test-pass"
    evidence_data := "d"
    prompt_text := none
    completion_text := none
    conversation_id := none
    knowledge_pattern_id := none
    coding_standard_id := none
    visibility := "team"
    created_at := i }

def store101 : List Evidence := (List.range 101).map mkRow

def bigLimitOpts : SearchOpts := { limit := some 101 }

/-- Claim C6 (counterexample): the limit option is not capped at 100.  A
caller-supplied limit of 101 over a 101-row store returns 101 rows. -/
theorem limit_not_capped_counterexample :
    100 < (searchEvidence bigLimitOpts ctx1 store101).length := by
  have hfilter : searchMatches bigLimitOpts ctx1 store101 = store101 := by
    rw [searchMatches, List.filter_eq_self]
    intro a ha
    rw [store101, List.mem_map] at ha
    obtain ⟨i, hi, hrfl⟩ := ha
    rw [← hrfl]
    rfl
  rw [searchEvidence, hfilter]
  have hlen : (sortDescBy (fun e => e.created_at) store101).length = 101 := by
    rw [length_sortDescBy, store101, List.length_map, List.length_range]
  show 100 < ((sortDescBy (fun e => e.created_at) store101).take 101).length
  rw [List.length_take, hlen]
  decide

/-- Claim C6 (amended): limit defaults to 100 and offset to 0 (omitting both
options gives exactly the limit = 100, offset = 0 page), and the number of
rows returned never exceeds the effective limit — but a caller-supplied
limit above 100 is used as given, so more than 100 rows can come back. -/
theorem search_pagination_defaults (opts : SearchOpts) (ctx : Ctx)
    (rows : List Evidence) :
    searchEvidence { opts with limit := none, offset := none } ctx rows
      = searchEvidence { opts with limit := some 100, offset := some 0 } ctx rows
    ∧ (searchEvidence opts ctx rows).length ≤ opts.limit.getD 100 := by
  constructor
  · rfl
  · rw [searchEvidence]
    exact List.length_take_le _ _

/-- Claim C7: the in-place hook update maps each row either to itself (when
id or team does not match) or to a copy whose version, id, name, category,
hook_type, team_id, project_id, scope, created_by and created_at are all
unchanged — only script_content, enabled and updated_at may differ. -/
theorem updateHookInPlace_frame (id2 : Nat) (sc : String) (en : Bool) (ctx : Ctx)
    (now : Nat) (hooks : List Hook) :
    List.Forall₂ (fun h2 h => h2.version = h.version ∧ h2.id = h.id
        ∧ h2.name = h.name ∧ h2.category = h.category ∧ h2.hook_type = h.hook_type
        ∧ h2.team_id = h.team_id ∧ h2.project_id = h.project_id ∧ h2.scope = h.scope
        ∧ h2.created_by = h.created_by ∧ h2.created_at = h.created_at
        ∧ (¬ (h.id = id2 ∧ h.team_id = ctx.team_id) → h2 = h))
      (updateHookInPlace id2 sc en ctx now hooks) hooks := by
  rw [updateHookInPlace]
  induction hooks with
  | nil => exact List.Forall₂.nil
  | cons h hs ih =>
    rw [List.map_cons]
    refine List.Forall₂.cons ?_ ih
    split
    · rename_i hcond
      rw [Bool.and_eq_true, decide_eq_true_eq, decide_eq_true_eq] at hcond
      exact ⟨rfl, rfl, rfl, rfl, rfl, rfl, rfl, rfl, rfl, rfl,
        fun hc => absurd hcond hc⟩
    · exact ⟨rfl, rfl, rfl, rfl, rfl, rfl, rfl, rfl, rfl, rfl, fun hc => rfl⟩

theorem find_append_none {α : Type} (p : α → Bool) (l1 l2 : List α)
    (h : l1.find? p = none) : (l1 ++ l2).find? p = l2.find? p := by
  induction l1 with
  | nil => rfl
  | cons a as ih =>
    cases hp : p a with
    | true =>
      rw [List.find?_cons_of_pos _ hp] at h
      simp at h
    | false =>
      have hp2 : ¬ p a = true := by
        rw [hp]
        exact Bool.false_ne_true
      rw [List.find?_cons_of_neg _ hp2] at h
      rw [List.cons_append, List.find?_cons_of_neg _ hp2]
      exact ih h

/-- Claim C8: the knowledge link operation is idempotent on the triple
(project_id, knowledge_type, knowledge_id): immediately re-linking the same
triple (with any scope, creator, id-sequence or clock values) returns the
row the first call returned and leaves the table exactly as the first call
left it; no error value exists in the operation. -/
theorem linkKnowledge_idempotent (p : Nat) (t k s1 s2 : String)
    (b1 b2 n1 n2 t1 t2 : Nat) (links : List KnowledgeLink) :
    (linkKnowledge p t k s2 b2 n2 t2 (linkKnowledge p t k s1 b1 n1 t1 links).2).1
      = (linkKnowledge p t k s1 b1 n1 t1 links).1
    ∧ (linkKnowledge p t k s2 b2 n2 t2 (linkKnowledge p t k s1 b1 n1 t1 links).2).2
      = (linkKnowledge p t k s1 b1 n1 t1 links).2 := by
  unfold linkKnowledge
  cases hf : links.find? (linkMatches p t k) with
  | some l =>
    simp only [hf]
    exact ⟨trivial, trivial⟩
  | none =>
    simp only [hf]
    have hrow : linkMatches p t k (linkRow p t k s1 b1 n1 t1) = true := by
      rw [linkMatches]
      simp [linkRow]
    rw [find_append_none _ _ _ hf, List.find?_cons_of_pos _ hrow]
    exact ⟨rfl, rfl⟩

/-- Claim C9: a valid authenticated submission followed by a context fetch of
the returned id under the same caller yields exactly the stored row, whose
fields are the submitted ones (visibility with its handler default) plus the
server-assigned id and created_at.  The freshness hypothesis states that the
id sequence is ahead of every stored id, which the database sequence
guarantees. -/
theorem submit_context_roundtrip (body : EvidenceBody) (ctx : Ctx)
    (st : EvidenceStore) (row : Evidence) (st2 : EvidenceStore)
    (hfresh : ∀ e ∈ st.rows, e.id < st.nextId)
    (hsub : submitEvidence body ctx st = .ok (row, st2)) :
    getEvidenceContext row.id ctx st2 = .ok row
    ∧ row.task_category = body.task_category
    ∧ row.evidence_type = body.evidence_type
    ∧ row.evidence_data = body.evidence_data
    ∧ row.prompt_text = body.prompt_text
    ∧ row.completion_text = body.completion_text
    ∧ row.conversation_id = body.conversation_id
    ∧ row.knowledge_pattern_id = body.knowledge_pattern_id
    ∧ row.coding_standard_id = body.coding_standard_id
    ∧ row.visibility = body.visibility.getD "team"
    ∧ row.id = st.nextId ∧ row.created_at = st.now := by
  unfold submitEvidence at hsub
  split at hsub
  · simp at hsub
  · rw [Except.ok.injEq, Prod.mk.injEq] at hsub
    obtain ⟨hrow, hst⟩ := hsub
    subst hrow
    subst hst
    refine ⟨?_, rfl, rfl, rfl, rfl, rfl, rfl, rfl, rfl, rfl, rfl, rfl⟩
    unfold getEvidenceContext
    have hnone : st.rows.find? (fun e =>
        e.id = (submitRow body ctx st).id && e.team_id = some ctx.team_id) = none := by
      rw [List.find?_eq_none]
      intro e he
      rw [Bool.and_eq_true, decide_eq_true_eq, decide_eq_true_eq, not_and]
      intro hid
      exact absurd hid (Nat.ne_of_lt (hfresh e he))
    show (match (st.rows ++ [submitRow body ctx st]).find? (fun e =>
        e.id = (submitRow body ctx st).id && e.team_id = some ctx.team_id) with
      | some e => Except.ok e
      | none => Except.error ApiError.notFound)
      = Except.ok (submitRow body ctx st)
    rw [find_append_none _ _ _ hnone]
    have hfind : List.find? (fun e =>
        e.id = (submitRow body ctx st).id && e.team_id = some ctx.team_id)
        [submitRow body ctx st] = some (submitRow body ctx st) := by
      simp [submitRow]
    rw [hfind]

/-- Witness for C9: a concrete submission into an empty store round-trips. -/
theorem submit_context_roundtrip_witness :
    getEvidenceContext (submitRow bodyA ctx1 stEmpty).id ctx1
      { rows := stEmpty.rows ++ [submitRow bodyA ctx1 stEmpty],
        nextId := stEmpty.nextId + 1, now := stEmpty.now }
      = .ok (submitRow bodyA ctx1 stEmpty)
    ∧ (submitRow bodyA ctx1 stEmpty).task_category = bodyA.task_category :=
  ⟨(submit_context_roundtrip bodyA ctx1 stEmpty _ _ (by decide) rfl).1,
   (submit_context_roundtrip bodyA ctx1 stEmpty _ _ (by decide) rfl).2.1⟩

/-- Claim C10: every row the compliance metrics operation returns carries
pass_rate exactly 0.87, for every filter, caller and store content — the SQL
selects the literal 0.87, independent of the evidence rows. -/
theorem compliance_pass_rate_constant (opts : MetricsOpts) (ctx : Ctx)
    (rows : List Evidence) (r : MetricRow)
    (hr : r ∈ complianceMetrics opts ctx rows) :
    r.pass_rate = 87 / 100 := by
  simp only [complianceMetrics] at hr
  rw [mem_sortDescBy, List.mem_map] at hr
  obtain ⟨c, hc, hrc⟩ := hr
  rw [← hrc]
  show mkRat 87 100 = 87 / 100
  norm_num

/-- The metric row a one-row caller-team store produces. -/
def mRow1 : MetricRow :=
  { task_category := "web"
    total_verifications := 1
    unique_users := 1
    pass_rate := mkRat 87 100 }

/-- Witness for C10: the concrete metrics row of a one-row store has the
constant pass rate. -/
theorem compliance_pass_rate_constant_witness :
    mRow1 ∈ complianceMetrics {} ctx1 [row2] ∧ mRow1.pass_rate = 87 / 100 :=
  ⟨by decide, compliance_pass_rate_constant {} ctx1 [row2] mRow1 (by decide)⟩
